import Mathlib

/-!
Fake-container menus (package `inv`): the menu protocol driver.

A shallow embedding of `src/inv/menu.go`.  `sendMenu` talks to a player session through a
handful of calls (`ViewBlockUpdate`, `writePacket`, `nextWindowID`, `sendInv`, reflective
field writes) and to the package-level tracker `lastMenus`.  The embedding makes every such
call an `Event`; one run of `sendMenu` yields the list of events it performed, in program
order, together with the tracker and allocator state it leaves behind.

Conventions.
* `byte` is `Fin 256`; Go `int` coordinates are `Int` with 64-bit wrap-around on addition,
  `int32` conversion is the explicit twos-complement truncation `int32`.
* The floating-point expression
  `cube.PosFromVec3(p.Rotation().Vec3().Mul(-2).Add(p.Position()))` is not evaluated: a
  `Player` carries its value in the field `fakePos`.
* Declarations that `menu.go` uses but that live in files of the package outside the two
  source files (`ContainerTypeChest/Hopper/Dropper`, `blockFromContainerKind`,
  `containerPos`) and the library pieces (`nextWindowID`, the `protocol` container codes)
  are fields of `Env`.
* A call that panics is a run with `returned = false` that keeps the events performed
  before the panic.  Two calls can panic: `inventory.New`, which the library rejects for a
  size of zero (a menu without items), and `blockFromContainerKind`.
-/

namespace Inv

/-! ## Machine integers -/

/-- Twos-complement truncation of an integer to `bits` bits (Go integer conversion). -/
def wrapInt (bits : Nat) (v : Int) : Int :=
  (v + 2 ^ (bits - 1)) % 2 ^ bits - 2 ^ (bits - 1)

/-- Go `int32(v)`. -/
def int32 (v : Int) : Int := wrapInt 32 v

/-- Go `int` (64 bit) arithmetic result. -/
def int64 (v : Int) : Int := wrapInt 64 v

/-- Go `byte`. -/
abbrev Byte := Fin 256

/-- Go `uint32(b)` for a byte `b`. -/
def uint32 (b : Byte) : Nat := b.val % 2 ^ 32

/-! ## Positions -/

/-- Type `cube.Pos`, a `[3]int`. -/
structure Pos where
  x : Int
  y : Int
  z : Int
deriving DecidableEq, Repr

/-- Method `cube.Pos.Add`: component-wise `int` addition. -/
def Pos.Add (p q : Pos) : Pos :=
  ⟨int64 (p.x + q.x), int64 (p.y + q.y), int64 (p.z + q.z)⟩

/-- Type `protocol.BlockPos`, a `[3]int32`. -/
structure BlockPos where
  X : Int
  Y : Int
  Z : Int
deriving DecidableEq, Repr

/-- Function `blockPosToProtocol` (menu.go:127): converts a `cube.Pos` to a `protocol.BlockPos`. -/
def blockPosToProtocol (pos : Pos) : BlockPos :=
  ⟨int32 pos.x, int32 pos.y, int32 pos.z⟩

/-! ## Items, inventories, menus -/

/-- Type `item.Stack`: a library value that the driver only copies.  A stack is
represented by an identifying code; code `0` is the zero value `item.Stack{}`. -/
structure Stack where
  code : Nat
deriving DecidableEq, Repr

/-- Type `Menu` (menu.go:19).  The `submittable` interface value is kept as the identity
of the handler. -/
structure Menu where
  name : String
  kind : Byte
  submittable : Nat
  items : List Stack
  pos : Pos
  windowID : Byte
deriving DecidableEq, Repr

/-- Function `NewMenu` (menu.go:30). -/
def NewMenu (submittable : Nat) (name : String) (kind : Byte) : Menu :=
  { name := name, kind := kind, submittable := submittable, items := [],
    pos := ⟨0, 0, 0⟩, windowID := 0 }

/-- Method `Menu.WithStacks` (menu.go:35). -/
def Menu.WithStacks (m : Menu) (stackList : List Stack) : Menu :=
  { m with items := stackList }

/-- Type `inventory.Inventory` of the server library, at the interface the driver uses: a
fixed number of slots and the handler attached with `Handle` (here: the menu held by the
`handler` value). -/
structure Inventory where
  slots : List Stack
  handler : Option Menu
deriving DecidableEq, Repr

/-- Library call `inventory.New(size, f)`: the library panics when `size <= 0` (`none`);
otherwise the result has `size` empty slots and no handler yet. -/
def Inventory.New (size : Int) : Option Inventory :=
  if size ≤ 0 then none
  else some { slots := List.replicate size.toNat ⟨0⟩, handler := none }

/-- Library call `inv.Handle(handler{p: p, menu: m})`. -/
def Inventory.Handle (inv : Inventory) (m : Menu) : Inventory :=
  { inv with handler := some m }

/-- Error value `inventory.ErrSlotOutOfRange`. -/
inductive InvError where
  | ErrSlotOutOfRange
deriving DecidableEq, Repr

/-- Library call `inv.SetItem(slot, it)`: an error when `slot` is no valid slot, otherwise
the slot is overwritten. -/
def Inventory.SetItem (inv : Inventory) (slot : Int) (it : Stack) : Except InvError Inventory :=
  if slot < 0 ∨ (inv.slots.length : Int) ≤ slot then
    Except.error InvError.ErrSlotOutOfRange
  else
    Except.ok { inv with slots := inv.slots.set slot.toNat it }

/-- The loop `for i, it := range m.items { _ = inv.SetItem(i, it) }` (menu.go:65-67),
started at index `i`.  The error is discarded as in the source; the second component logs
every call as (slot index, call succeeded). -/
def setItems : List Stack → Nat → Inventory → Inventory × List (Int × Bool)
  | [], _, inv => (inv, [])
  | it :: rest, i, inv =>
    match inv.SetItem (i : Int) it with
    | Except.ok inv1 =>
      let r := setItems rest (i + 1) inv1
      (r.1, ((i : Int), true) :: r.2)
    | Except.error _ =>
      let r := setItems rest (i + 1) inv
      (r.1, ((i : Int), false) :: r.2)

/-! ## Blocks, NBT, packets, events -/

/-- Values of `world.Block` that occur: `block.Air{}`, the chest of the server library, and
the two synthetic blocks `hopper{}` and `dropper{}` of block.go. -/
inductive Block where
  | Air
  | Chest
  | hopper
  | dropper
  | other (hash : Nat)
deriving DecidableEq, Repr

/-- Values stored in the NBT map: Go strings and `int32`s. -/
inductive NBTValue where
  | str (s : String)
  | i32 (v : Int)
deriving DecidableEq, Repr

/-- A Go `map[string]interface{}`, as an association list without duplicate keys (keys in
order of first insertion). -/
abbrev NBT := List (String × NBTValue)

/-- Map assignment `m[k] = v`. -/
def NBT.set : NBT → String → NBTValue → NBT
  | [], k, v => [(k, v)]
  | (k1, v1) :: rest, k, v =>
    if k1 = k then (k, v) :: rest else (k1, v1) :: NBT.set rest k v

/-- Map lookup `m[k]`. -/
def NBT.get : NBT → String → Option NBTValue
  | [], _ => none
  | (k1, v1) :: rest, k => if k1 = k then some v1 else NBT.get rest k

/-- The two packets written by the driver. -/
inductive Packet where
  | BlockActorData (Position : BlockPos) (NBTData : NBT)
  | ContainerOpen (WindowID : Byte) (ContainerPosition : BlockPos) (ContainerType : Byte)
      (ContainerEntityUniqueID : Int)
deriving DecidableEq, Repr

/-- Values written into private session fields by `updatePrivateField`. -/
inductive FieldValue where
  | pos (p : Pos)
  | inv (i : Inventory)
  | bool (b : Bool)
  | u32 (n : Nat)
deriving DecidableEq, Repr

/-- One call made by `sendMenu` on the session, or the Close signal given for a menu. -/
inductive Event where
  | closeSignal (mn : Menu)
  | nextWindowID (id : Byte)
  | ViewBlockUpdate (pos : Pos) (b : Block) (layer : Nat)
  | writePacket (pk : Packet)
  | updatePrivateField (name : String) (v : FieldValue)
  | sendInv (inv : Inventory) (windowID : Nat)
deriving DecidableEq, Repr

/-- Messages that travel to the client: block updates, packets, inventory pushes. -/
def Event.isMessage : Event → Bool
  | Event.ViewBlockUpdate _ _ _ => true
  | Event.writePacket _ => true
  | Event.sendInv _ _ => true
  | _ => false

/-- Block-update messages. -/
def Event.isBlockUpdate : Event → Bool
  | Event.ViewBlockUpdate _ _ _ => true
  | _ => false

/-- BlockActorData packets. -/
def Event.isBlockActorData : Event → Bool
  | Event.writePacket (Packet.BlockActorData _ _) => true
  | _ => false

/-- ContainerOpen packets. -/
def Event.isContainerOpen : Event → Bool
  | Event.writePacket (Packet.ContainerOpen _ _ _ _) => true
  | _ => false

/-- Close signals. -/
def Event.isClose : Event → Bool
  | Event.closeSignal _ => true
  | _ => false

/-- Calls of the window-id allocator. -/
def Event.isAlloc : Event → Bool
  | Event.nextWindowID _ => true
  | _ => false

/-- Inventory-contents pushes. -/
def Event.isPush : Event → Bool
  | Event.sendInv _ _ => true
  | _ => false

/-! ## Environment and state -/

/-- What `menu.go` takes from outside the two source files.
* `ContainerTypeChest`, `ContainerTypeHopper`, `ContainerTypeDropper`: the kind constants
  of the package; they are pairwise different (they label the cases of one `switch`).
* `blockFromContainerKind`: the visual block of a kind; `none` stands for a call that does
  not return (a panic).  `specBlockFromContainerKind` is the function the spec describes.
* `containerPos`: the package variable written into the session field `openedPos`.
* `session_nextWindowID`: the allocator of the session, a function of the allocator state.
* `protocol_ContainerType…`: the container codes of package `protocol`. -/
structure Env where
  ContainerTypeChest : Byte
  ContainerTypeHopper : Byte
  ContainerTypeDropper : Byte
  chest_ne_hopper : ContainerTypeChest ≠ ContainerTypeHopper
  chest_ne_dropper : ContainerTypeChest ≠ ContainerTypeDropper
  hopper_ne_dropper : ContainerTypeHopper ≠ ContainerTypeDropper
  blockFromContainerKind : Byte → Option Block
  containerPos : Pos
  session_nextWindowID : Nat → Byte × Nat
  protocol_ContainerTypeContainer : Byte
  protocol_ContainerTypeHopper : Byte
  protocol_ContainerTypeDropper : Byte

/-- State that outlives a call: the tracker `lastMenus` (keyed by session identity) and the
allocator state of every session. -/
structure World where
  lastMenus : Nat → Option Menu
  windowState : Nat → Nat

/-- A `*player.Player` as far as `sendMenu` looks at it: its session and the value of
`cube.PosFromVec3(p.Rotation().Vec3().Mul(-2).Add(p.Position()))`. -/
structure Player where
  session : Nat
  fakePos : Pos
deriving DecidableEq, Repr

/-- Linked function `player_session`. -/
def player_session (p : Player) : Nat := p.session

/-- Modelled from the spec: `lastMenu` is not among the source files; the spec gives the
tracker operation `get(session) -> (Menu, found)`. -/
def lastMenu (w : World) (s : Nat) : Option Menu := w.lastMenus s

/-- Modelled from the spec: `closeLastMenu` is not among the source files; the spec
describes the Close transition as a notification of the outgoing handler (its Closer
capability, if present) for which no packet is prescribed.  The call yields one Close
signal for the menu and changes nothing else. -/
def closeLastMenu (mn : Menu) : List Event := [Event.closeSignal mn]

/-- Function `createFakeInventoryNBT` (menu.go:132). -/
def createFakeInventoryNBT (E : Env) (name : String) (kind : Byte) : NBT :=
  let m : NBT := [("CustomName", NBTValue.str name)]
  if kind = E.ContainerTypeChest then NBT.set m "id" (NBTValue.str "Chest")
  else if kind = E.ContainerTypeHopper then NBT.set m "id" (NBTValue.str "Hopper")
  else if kind = E.ContainerTypeDropper then NBT.set m "id" (NBTValue.str "Dropper")
  else m

/-- Result of one call of `sendMenu`: the events in program order, the log of the slot
writes of the fill loop, the state left behind, and whether the call returned (`false`: it
stopped in a panic, of `inventory.New` at menu.go:63 or of `blockFromContainerKind` at
menu.go:84). -/
structure Outcome where
  events : List Event
  slotWrites : List (Int × Bool)
  world : World
  returned : Bool

/-- Function `sendMenu` (menu.go:60). -/
def sendMenu (E : Env) (w : World) (p : Player) (m : Menu) (update : Bool) : Outcome :=
  let s := player_session p
  match Inventory.New (m.items.length : Int) with
  | none =>
    -- menu.go:63 panics: nothing was done yet
    { events := [], slotWrites := [], world := w, returned := false }
  | some inv0 =>
    let filled := setItems m.items 0 (Inventory.Handle inv0 m)
    let inv := filled.1
    let pos0 := p.fakePos
    let blockPos := blockPosToProtocol pos0
    -- menu.go:70-83; the tuple is (pos, nextID, events so far, state so far)
    let br : Pos × Byte × List Event × World :=
      if update then
        match lastMenu w s with
        | some mn => (mn.pos, mn.windowID, [], w)
        | none => (pos0, 0, [], w)
      else
        let closing : List Event :=
          match lastMenu w s with
          | some mn => if mn.pos ≠ pos0 then closeLastMenu mn else []
          | none => []
        let r := E.session_nextWindowID (w.windowState s)
        (pos0, r.1, closing ++ [Event.nextWindowID r.1],
          { w with windowState := Function.update w.windowState s r.2 })
    let pos := br.1
    let nextID := br.2.1
    match E.blockFromContainerKind m.kind with
    | none =>
      { events := br.2.2.1, slotWrites := filled.2, world := br.2.2.2, returned := false }
    | some visual =>
      let data := createFakeInventoryNBT E m.name m.kind
      let data := NBT.set (NBT.set (NBT.set data "x" (NBTValue.i32 blockPos.X))
        "y" (NBTValue.i32 blockPos.Y)) "z" (NBTValue.i32 blockPos.Z)
      let containerType : Byte :=
        if m.kind = E.ContainerTypeChest then E.protocol_ContainerTypeContainer
        else if m.kind = E.ContainerTypeHopper then E.protocol_ContainerTypeHopper
        else if m.kind = E.ContainerTypeDropper then E.protocol_ContainerTypeDropper
        else 0
      let m1 : Menu := { m with pos := pos, windowID := nextID }
      { events := br.2.2.1 ++
          [ Event.ViewBlockUpdate pos visual 0,
            Event.ViewBlockUpdate (pos.Add ⟨0, 1, 0⟩) Block.Air 0,
            Event.writePacket (Packet.BlockActorData blockPos data),
            Event.updatePrivateField "openedPos" (FieldValue.pos E.containerPos),
            Event.updatePrivateField "openedWindow" (FieldValue.inv inv),
            Event.updatePrivateField "containerOpened" (FieldValue.bool true),
            Event.updatePrivateField "openedContainerID" (FieldValue.u32 (uint32 nextID)),
            Event.writePacket (Packet.ContainerOpen nextID blockPos containerType (-1)),
            Event.sendInv inv (uint32 nextID) ],
        slotWrites := filled.2,
        world :=
          { br.2.2.2 with lastMenus := Function.update br.2.2.2.lastMenus s (some m1) },
        returned := true }

/-- Function `SendMenu` (menu.go:51). -/
def SendMenu (E : Env) (w : World) (p : Player) (m : Menu) : Outcome :=
  sendMenu E w p m false

/-- Function `UpdateMenu` (menu.go:56). -/
def UpdateMenu (E : Env) (w : World) (p : Player) (m : Menu) : Outcome :=
  sendMenu E w p m true

/-! ## A concrete environment -/

/-- Modelled from the spec: `blockFromContainerKind` is not among the source files.  The
registry of the spec maps Chest, Hopper and Dropper to a visual block (the chest of the base
block set and the two synthetic blocks of block.go) and treats any other kind as a
fail-fast fault (`none`). -/
def specBlockFromContainerKind (chest hopper dropper : Byte) (kind : Byte) : Option Block :=
  if kind = chest then some Block.Chest
  else if kind = hopper then some Block.hopper
  else if kind = dropper then some Block.dropper
  else none

/-- The environment `E` with `specBlockFromContainerKind` (for the kind constants of `E`)
as its `blockFromContainerKind`. -/
def Env.withSpecBlocks (E : Env) : Env :=
  { E with
    blockFromContainerKind := fun kind =>
      specBlockFromContainerKind E.ContainerTypeChest E.ContainerTypeHopper
        E.ContainerTypeDropper kind }

/-- An allocator cycling through the ids 1..99. -/
def refNextWindowID (c : Nat) : Byte × Nat :=
  if c = 99 then (1, 1) else (Fin.ofNat (c + 1), c + 1)

/-- A concrete environment for evaluating the driver: the kind constants numbered in
order, the visual blocks of the registry of the spec, the container codes 0, 8 and 7 for
container, hopper and dropper, and an allocator cycling through 1..99. -/
def refEnv : Env where
  ContainerTypeChest := 0
  ContainerTypeHopper := 1
  ContainerTypeDropper := 2
  chest_ne_hopper := by decide
  chest_ne_dropper := by decide
  hopper_ne_dropper := by decide
  blockFromContainerKind := specBlockFromContainerKind 0 1 2
  containerPos := ⟨0, 0, 0⟩
  session_nextWindowID := refNextWindowID
  protocol_ContainerTypeContainer := 0
  protocol_ContainerTypeHopper := 8
  protocol_ContainerTypeDropper := 7

/-- The state before any menu was sent. -/
def emptyWorld : World :=
  { lastMenus := fun _ => none, windowState := fun _ => 0 }

/-! ## Pieces of `sendMenu` named for the statements below -/

/-- The inventory built at menu.go:63-67 when `inventory.New` returns. -/
def menuInventory (m : Menu) : Inventory :=
  (setItems m.items 0
    (Inventory.Handle { slots := List.replicate m.items.length ⟨0⟩, handler := none } m)).1

/-- The NBT map built at menu.go:87-88. -/
def menuNBT (E : Env) (m : Menu) (blockPos : BlockPos) : NBT :=
  NBT.set (NBT.set (NBT.set (createFakeInventoryNBT E m.name m.kind)
    "x" (NBTValue.i32 blockPos.X)) "y" (NBTValue.i32 blockPos.Y)) "z" (NBTValue.i32 blockPos.Z)

/-- The value of `containerType` after the switch at menu.go:100-108. -/
def menuContainerType (E : Env) (kind : Byte) : Byte :=
  if kind = E.ContainerTypeChest then E.protocol_ContainerTypeContainer
  else if kind = E.ContainerTypeHopper then E.protocol_ContainerTypeHopper
  else if kind = E.ContainerTypeDropper then E.protocol_ContainerTypeDropper
  else 0

/-- The nine calls of menu.go:84-116, for given `pos`, `blockPos` and `nextID`. -/
def openCalls (E : Env) (m : Menu) (visual : Block) (pos : Pos) (blockPos : BlockPos)
    (nextID : Byte) : List Event :=
  [ Event.ViewBlockUpdate pos visual 0,
    Event.ViewBlockUpdate (pos.Add ⟨0, 1, 0⟩) Block.Air 0,
    Event.writePacket (Packet.BlockActorData blockPos (menuNBT E m blockPos)),
    Event.updatePrivateField "openedPos" (FieldValue.pos E.containerPos),
    Event.updatePrivateField "openedWindow" (FieldValue.inv (menuInventory m)),
    Event.updatePrivateField "containerOpened" (FieldValue.bool true),
    Event.updatePrivateField "openedContainerID" (FieldValue.u32 (uint32 nextID)),
    Event.writePacket
      (Packet.ContainerOpen nextID blockPos (menuContainerType E m.kind) (-1)),
    Event.sendInv (menuInventory m) (uint32 nextID) ]

/-- The Close signal of menu.go:79-81. -/
def closing (w : World) (p : Player) : List Event :=
  match lastMenu w (player_session p) with
  | some mn => if mn.pos ≠ p.fakePos then closeLastMenu mn else []
  | none => []

/-- The id handed out by the allocator of the session of the player in state `w`. -/
def allocated (E : Env) (w : World) (p : Player) : Byte :=
  (E.session_nextWindowID (w.windowState (player_session p))).1

/-- Every coordinate of `p` is an `int32` value. -/
def Pos.inInt32 (p : Pos) : Prop :=
  (-2 ^ 31 ≤ p.x ∧ p.x < 2 ^ 31) ∧ (-2 ^ 31 ≤ p.y ∧ p.y < 2 ^ 31) ∧
    (-2 ^ 31 ≤ p.z ∧ p.z < 2 ^ 31)

instance (p : Pos) : Decidable p.inInt32 := by
  unfold Pos.inInt32
  infer_instance

/-! ## Scenario values -/

/-- The player of the scenarios: session 0, fake position (10, 5, 10). -/
def playerP : Player := { session := 0, fakePos := ⟨10, 5, 10⟩ }

/-- The same player after turning around: fake position (10, 5, 14). -/
def playerPTurned : Player := { session := 0, fakePos := ⟨10, 5, 14⟩ }

/-- Menu M1: a chest named Loot with one stack. -/
def menuM1 : Menu := (NewMenu 1 "Loot" refEnv.ContainerTypeChest).WithStacks [⟨11⟩]

/-- Menu M1 with two stacks. -/
def menuM1Two : Menu := (NewMenu 1 "Loot" refEnv.ContainerTypeChest).WithStacks [⟨11⟩, ⟨12⟩]

/-- Menu M2: a hopper named Output, as `NewMenu` returns it, without items. -/
def menuM2 : Menu := NewMenu 2 "Output" refEnv.ContainerTypeHopper

/-- Menu M2 with one stack. -/
def menuM2Stocked : Menu := menuM2.WithStacks [⟨21⟩]

/-- A menu with one stack whose kind byte is none of the three constants. -/
def menuOdd : Menu := (NewMenu 3 "Odd" 3).WithStacks [⟨31⟩]

/-- The tracker entry left by `SendMenu` of M1: M1 at (10, 5, 10) with window id 1. -/
def trackedM1 : Menu := { menuM1 with pos := ⟨10, 5, 10⟩, windowID := 1 }

/-- The state after `SendMenu` of M1 to the player in the empty state. -/
def worldAfterM1 : World := (SendMenu refEnv emptyWorld playerP menuM1).world


/-! ## Unfolding lemmas -/

theorem Inventory_New_of_ne (l : List Stack) (h : l ≠ []) :
    Inventory.New (l.length : Int) =
      some { slots := List.replicate l.length ⟨0⟩, handler := none } := by
  have hpos : 0 < l.length := List.length_pos.mpr h
  have hnot : ¬ ((l.length : Int) ≤ 0) := by omega
  simp only [Inventory.New, hnot, if_false, Int.toNat_ofNat]

theorem Inventory_New_nil (l : List Stack) (h : l = []) :
    Inventory.New (l.length : Int) = none := by
  subst h
  rfl

theorem sendMenu_empty (E : Env) (w : World) (p : Player) (m : Menu) (update : Bool)
    (h : m.items = []) :
    (sendMenu E w p m update).events = [] ∧
    (sendMenu E w p m update).slotWrites = [] ∧
    (sendMenu E w p m update).returned = false ∧
    (sendMenu E w p m update).world = w := by
  unfold sendMenu
  simp only [Inventory_New_nil _ h]
  exact ⟨trivial, trivial, trivial, trivial⟩

theorem sendMenu_open_events (E : Env) (w : World) (p : Player) (m : Menu) (visual : Block)
    (hne : m.items ≠ [])
    (hv : E.blockFromContainerKind m.kind = some visual) :
    (sendMenu E w p m false).events =
      closing w p ++ Event.nextWindowID (allocated E w p) ::
        openCalls E m visual p.fakePos (blockPosToProtocol p.fakePos) (allocated E w p) := by
  unfold sendMenu
  simp only [Inventory_New_of_ne _ hne, hv]
  simp [closing, allocated, openCalls, menuNBT, menuInventory, menuContainerType]

theorem sendMenu_open_world (E : Env) (w : World) (p : Player) (m : Menu) (visual : Block)
    (hne : m.items ≠ [])
    (hv : E.blockFromContainerKind m.kind = some visual) :
    lastMenu (sendMenu E w p m false).world (player_session p) =
      some { m with pos := p.fakePos, windowID := allocated E w p } ∧
    (sendMenu E w p m false).returned = true := by
  unfold sendMenu
  simp only [Inventory_New_of_ne _ hne, hv]
  simp [lastMenu, allocated]

theorem sendMenu_open_panic (E : Env) (w : World) (p : Player) (m : Menu)
    (hne : m.items ≠ [])
    (hv : E.blockFromContainerKind m.kind = none) :
    (sendMenu E w p m false).events = closing w p ++ [Event.nextWindowID (allocated E w p)] ∧
    (sendMenu E w p m false).returned = false ∧
    (sendMenu E w p m false).world.lastMenus = w.lastMenus := by
  unfold sendMenu
  simp only [Inventory_New_of_ne _ hne, hv]
  simp [closing, allocated]

theorem sendMenu_update_tracked (E : Env) (w : World) (p : Player) (m mn : Menu)
    (visual : Block)
    (hne : m.items ≠ [])
    (ht : lastMenu w (player_session p) = some mn)
    (hv : E.blockFromContainerKind m.kind = some visual) :
    (sendMenu E w p m true).events =
      openCalls E m visual mn.pos (blockPosToProtocol p.fakePos) mn.windowID ∧
    lastMenu (sendMenu E w p m true).world (player_session p) =
      some { m with pos := mn.pos, windowID := mn.windowID } ∧
    (sendMenu E w p m true).world.windowState = w.windowState ∧
    (sendMenu E w p m true).returned = true := by
  unfold sendMenu
  simp only [Inventory_New_of_ne _ hne, hv, ht]
  simp [lastMenu, openCalls, menuNBT, menuInventory, menuContainerType]

theorem sendMenu_update_untracked (E : Env) (w : World) (p : Player) (m : Menu)
    (visual : Block)
    (hne : m.items ≠ [])
    (ht : lastMenu w (player_session p) = none)
    (hv : E.blockFromContainerKind m.kind = some visual) :
    (sendMenu E w p m true).events =
      openCalls E m visual p.fakePos (blockPosToProtocol p.fakePos) 0 ∧
    lastMenu (sendMenu E w p m true).world (player_session p) =
      some { m with pos := p.fakePos, windowID := 0 } ∧
    (sendMenu E w p m true).world.windowState = w.windowState ∧
    (sendMenu E w p m true).returned = true := by
  unfold sendMenu
  simp only [Inventory_New_of_ne _ hne, hv, ht]
  simp [lastMenu, openCalls, menuNBT, menuInventory, menuContainerType]

theorem sendMenu_update_panic (E : Env) (w : World) (p : Player) (m : Menu)
    (hne : m.items ≠ [])
    (hv : E.blockFromContainerKind m.kind = none) :
    (sendMenu E w p m true).events = [] ∧
    (sendMenu E w p m true).returned = false ∧
    (sendMenu E w p m true).world.lastMenus = w.lastMenus ∧
    (sendMenu E w p m true).world.windowState = w.windowState := by
  unfold sendMenu
  simp only [Inventory_New_of_ne _ hne, hv]
  cases h : lastMenu w (player_session p) <;> simp

theorem sendMenu_returned_iff (E : Env) (w : World) (p : Player) (m : Menu)
    (update : Bool) :
    (sendMenu E w p m update).returned = true ↔
      m.items ≠ [] ∧ ∃ visual, E.blockFromContainerKind m.kind = some visual := by
  by_cases hne : m.items = []
  · simp [(sendMenu_empty E w p m update hne).2.2.1, hne]
  · cases hv : E.blockFromContainerKind m.kind with
    | none =>
      cases update with
      | false => simp [(sendMenu_open_panic E w p m hne hv).2.1, hne]
      | true => simp [(sendMenu_update_panic E w p m hne hv).2.1, hne]
    | some visual =>
      cases update with
      | false => simp [(sendMenu_open_world E w p m visual hne hv).2, hne]
      | true =>
        cases ht : lastMenu w (player_session p) with
        | none => simp [(sendMenu_update_untracked E w p m visual hne ht hv).2.2.2, hne]
        | some mn => simp [(sendMenu_update_tracked E w p m mn visual hne ht hv).2.2.2, hne]

theorem int32_of_range (v : Int) (h : -2 ^ 31 ≤ v ∧ v < 2 ^ 31) : int32 v = v := by
  unfold int32 wrapInt
  have h1 : (v + 2 ^ (32 - 1)) % 2 ^ 32 = v + 2 ^ (32 - 1) := by
    apply Int.emod_eq_of_lt <;> norm_num <;> omega
  rw [h1]
  ring

theorem blockPosToProtocol_of_inInt32 (p : Pos) (h : p.inInt32) :
    blockPosToProtocol p = ⟨p.x, p.y, p.z⟩ := by
  obtain ⟨hx, hy, hz⟩ := h
  simp only [blockPosToProtocol, int32_of_range _ hx, int32_of_range _ hy,
    int32_of_range _ hz]

theorem closing_filter (w : World) (p : Player) :
    (closing w p).filter Event.isAlloc = [] ∧
    (closing w p).filter Event.isMessage = [] ∧
    (closing w p).filter Event.isClose = closing w p := by
  unfold closing
  cases lastMenu w (player_session p) with
  | none => simp
  | some mn => by_cases h : mn.pos = p.fakePos <;> simp [h, closeLastMenu, Event.isAlloc,
      Event.isMessage, Event.isClose]

theorem closing_alloc_filter (w : World) (p : Player) (id : Byte) (f : Event → Bool)
    (h1 : f (Event.nextWindowID id) = false)
    (h2 : ∀ mn, f (Event.closeSignal mn) = false) :
    (closing w p ++ [Event.nextWindowID id]).filter f = [] := by
  unfold closing
  cases lastMenu w (player_session p) with
  | none => simp [List.filter_cons, h1]
  | some mn =>
    by_cases h : mn.pos = p.fakePos <;> simp [h, closeLastMenu, List.filter_cons, h1, h2]

theorem sendMenu_open_events_any (E : Env) (w : World) (p : Player) (m : Menu)
    (hne : m.items ≠ []) :
    ∃ tail : List Event,
      (sendMenu E w p m false).events =
        closing w p ++ Event.nextWindowID (allocated E w p) :: tail ∧
      tail.filter Event.isClose = [] ∧ tail.filter Event.isAlloc = [] := by
  cases hv : E.blockFromContainerKind m.kind with
  | none =>
    refine ⟨[], ?_, rfl, rfl⟩
    exact (sendMenu_open_panic E w p m hne hv).1
  | some visual =>
    refine ⟨_, sendMenu_open_events E w p m visual hne hv, rfl, rfl⟩

theorem sendMenu_open_filter (E : Env) (w : World) (p : Player) (m : Menu) (visual : Block)
    (hne : m.items ≠ [])
    (hv : E.blockFromContainerKind m.kind = some visual) (f : Event → Bool)
    (h1 : f (Event.nextWindowID (allocated E w p)) = false)
    (h2 : ∀ mn, f (Event.closeSignal mn) = false) :
    (sendMenu E w p m false).events.filter f =
      (openCalls E m visual p.fakePos (blockPosToProtocol p.fakePos)
        (allocated E w p)).filter f := by
  rw [sendMenu_open_events E w p m visual hne hv]
  unfold closing
  cases lastMenu w (player_session p) with
  | none => simp [List.filter_cons, h1]
  | some mn =>
    by_cases h : mn.pos = p.fakePos <;> simp [h, closeLastMenu, List.filter_cons, h1, h2]

theorem sendMenu_open_alloc (E : Env) (w : World) (p : Player) (m : Menu)
    (hne : m.items ≠ []) :
    (sendMenu E w p m false).events.filter Event.isAlloc =
      [Event.nextWindowID (allocated E w p)] := by
  obtain ⟨tail, he, _, ha⟩ := sendMenu_open_events_any E w p m hne
  rw [he]
  simp [List.filter_cons, Event.isAlloc, ha, (closing_filter w p).1]

theorem menuNBT_chest (E : Env) (m : Menu) (bp : BlockPos)
    (hk : m.kind = E.ContainerTypeChest) :
    menuNBT E m bp = [("CustomName", NBTValue.str m.name), ("id", NBTValue.str "Chest"),
      ("x", NBTValue.i32 bp.X), ("y", NBTValue.i32 bp.Y), ("z", NBTValue.i32 bp.Z)] := by
  simp [menuNBT, createFakeInventoryNBT, hk, NBT.set]

theorem menuNBT_hopper (E : Env) (m : Menu) (bp : BlockPos)
    (hk : m.kind = E.ContainerTypeHopper) :
    menuNBT E m bp = [("CustomName", NBTValue.str m.name), ("id", NBTValue.str "Hopper"),
      ("x", NBTValue.i32 bp.X), ("y", NBTValue.i32 bp.Y), ("z", NBTValue.i32 bp.Z)] := by
  have h1 : E.ContainerTypeHopper ≠ E.ContainerTypeChest := fun h => E.chest_ne_hopper h.symm
  simp [menuNBT, createFakeInventoryNBT, hk, h1, NBT.set]

theorem menuNBT_dropper (E : Env) (m : Menu) (bp : BlockPos)
    (hk : m.kind = E.ContainerTypeDropper) :
    menuNBT E m bp = [("CustomName", NBTValue.str m.name), ("id", NBTValue.str "Dropper"),
      ("x", NBTValue.i32 bp.X), ("y", NBTValue.i32 bp.Y), ("z", NBTValue.i32 bp.Z)] := by
  have h1 : E.ContainerTypeDropper ≠ E.ContainerTypeChest := fun h => E.chest_ne_dropper h.symm
  have h2 : E.ContainerTypeDropper ≠ E.ContainerTypeHopper :=
    fun h => E.hopper_ne_dropper h.symm
  simp [menuNBT, createFakeInventoryNBT, hk, h1, h2, NBT.set]

/-- C5. For a menu of kind Chest, Hopper or Dropper that `SendMenu` opens (the call runs
to its end) at the fake position `p.fakePos`: the run allocated one window id; the one
BlockActorData packet has the fake position and the NBT map CustomName, id, x, y, z with
the name of the menu, the id string of the kind and the three coordinates; the one
ContainerOpen packet has the allocated window id, that position, the protocol code of the
kind and entity id -1.  The position in the packets is the `protocol.BlockPos` conversion
of the fake position, which has the same coordinates whenever these are `int32` values. -/
theorem SendMenu_packet_contents (E : Env) (w : World) (p : Player) (m : Menu)
    (hk : m.kind = E.ContainerTypeChest ∨ m.kind = E.ContainerTypeHopper ∨
      m.kind = E.ContainerTypeDropper)
    (hopened : (SendMenu E w p m).returned = true) :
    ∃ (idString : String) (code : Byte),
      ((m.kind = E.ContainerTypeChest ∧ idString = "Chest" ∧
          code = E.protocol_ContainerTypeContainer) ∨
        (m.kind = E.ContainerTypeHopper ∧ idString = "Hopper" ∧
          code = E.protocol_ContainerTypeHopper) ∨
        (m.kind = E.ContainerTypeDropper ∧ idString = "Dropper" ∧
          code = E.protocol_ContainerTypeDropper)) ∧
      (SendMenu E w p m).events.filter Event.isAlloc =
        [Event.nextWindowID (allocated E w p)] ∧
      (SendMenu E w p m).events.filter Event.isBlockActorData =
        [Event.writePacket (Packet.BlockActorData (blockPosToProtocol p.fakePos)
          [("CustomName", NBTValue.str m.name), ("id", NBTValue.str idString),
            ("x", NBTValue.i32 (blockPosToProtocol p.fakePos).X),
            ("y", NBTValue.i32 (blockPosToProtocol p.fakePos).Y),
            ("z", NBTValue.i32 (blockPosToProtocol p.fakePos).Z)])] ∧
      (SendMenu E w p m).events.filter Event.isContainerOpen =
        [Event.writePacket (Packet.ContainerOpen (allocated E w p)
          (blockPosToProtocol p.fakePos) code (-1))] ∧
      (p.fakePos.inInt32 →
        blockPosToProtocol p.fakePos = ⟨p.fakePos.x, p.fakePos.y, p.fakePos.z⟩) := by
  obtain ⟨hne, visual, hv⟩ := (sendMenu_returned_iff E w p m false).mp hopened
  have hcl := sendMenu_open_filter E w p m visual hne hv
  have halloc := sendMenu_open_alloc E w p m hne
  unfold SendMenu
  have hbad := hcl Event.isBlockActorData rfl (fun _ => rfl)
  have hco := hcl Event.isContainerOpen rfl (fun _ => rfl)
  have h1 : E.ContainerTypeHopper ≠ E.ContainerTypeChest := fun h => E.chest_ne_hopper h.symm
  have h2 : E.ContainerTypeDropper ≠ E.ContainerTypeChest := fun h => E.chest_ne_dropper h.symm
  have h3 : E.ContainerTypeDropper ≠ E.ContainerTypeHopper :=
    fun h => E.hopper_ne_dropper h.symm
  rcases hk with hk | hk | hk
  · refine ⟨"Chest", E.protocol_ContainerTypeContainer, Or.inl ⟨hk, rfl, rfl⟩, halloc, ?_, ?_,
      blockPosToProtocol_of_inInt32 p.fakePos⟩
    · rw [hbad, ← menuNBT_chest E m _ hk]
      rfl
    · rw [hco]
      simp [openCalls, List.filter_cons, Event.isContainerOpen, menuContainerType, hk]
  · refine ⟨"Hopper", E.protocol_ContainerTypeHopper, Or.inr (Or.inl ⟨hk, rfl, rfl⟩), halloc,
      ?_, ?_, blockPosToProtocol_of_inInt32 p.fakePos⟩
    · rw [hbad, ← menuNBT_hopper E m _ hk]
      rfl
    · rw [hco]
      simp [openCalls, List.filter_cons, Event.isContainerOpen, menuContainerType, hk, h1]
  · refine ⟨"Dropper", E.protocol_ContainerTypeDropper, Or.inr (Or.inr ⟨hk, rfl, rfl⟩),
      halloc, ?_, ?_, blockPosToProtocol_of_inInt32 p.fakePos⟩
    · rw [hbad, ← menuNBT_dropper E m _ hk]
      rfl
    · rw [hco]
      simp [openCalls, List.filter_cons, Event.isContainerOpen, menuContainerType, hk, h2, h3]

/-- Witness for C5: the hopper M2 with one stack, sent to the player in the empty state,
is opened. -/
theorem SendMenu_packet_contents_witness :
    menuM2Stocked.kind = refEnv.ContainerTypeHopper ∧
    menuM2Stocked.items ≠ [] ∧
    (SendMenu refEnv emptyWorld playerP menuM2Stocked).returned = true ∧
    ∃ (idString : String) (code : Byte),
      ((menuM2Stocked.kind = refEnv.ContainerTypeChest ∧ idString = "Chest" ∧
          code = refEnv.protocol_ContainerTypeContainer) ∨
        (menuM2Stocked.kind = refEnv.ContainerTypeHopper ∧ idString = "Hopper" ∧
          code = refEnv.protocol_ContainerTypeHopper) ∨
        (menuM2Stocked.kind = refEnv.ContainerTypeDropper ∧ idString = "Dropper" ∧
          code = refEnv.protocol_ContainerTypeDropper)) ∧
      (SendMenu refEnv emptyWorld playerP menuM2Stocked).events.filter Event.isAlloc =
        [Event.nextWindowID (allocated refEnv emptyWorld playerP)] ∧
      (SendMenu refEnv emptyWorld playerP menuM2Stocked).events.filter
          Event.isBlockActorData =
        [Event.writePacket (Packet.BlockActorData (blockPosToProtocol playerP.fakePos)
          [("CustomName", NBTValue.str menuM2Stocked.name), ("id", NBTValue.str idString),
            ("x", NBTValue.i32 (blockPosToProtocol playerP.fakePos).X),
            ("y", NBTValue.i32 (blockPosToProtocol playerP.fakePos).Y),
            ("z", NBTValue.i32 (blockPosToProtocol playerP.fakePos).Z)])] ∧
      (SendMenu refEnv emptyWorld playerP menuM2Stocked).events.filter
          Event.isContainerOpen =
        [Event.writePacket (Packet.ContainerOpen (allocated refEnv emptyWorld playerP)
          (blockPosToProtocol playerP.fakePos) code (-1))] ∧
      (playerP.fakePos.inInt32 →
        blockPosToProtocol playerP.fakePos =
          ⟨playerP.fakePos.x, playerP.fakePos.y, playerP.fakePos.z⟩) :=
  ⟨by decide, by decide, by decide,
    SendMenu_packet_contents refEnv emptyWorld playerP menuM2Stocked
      (by decide) (by decide)⟩

/-! ## Contents of the pushed inventory -/

/-- C3, as stated, fails: after `SendMenu` of M1, `UpdateMenu` with the two-stack M1 for the
same player sends two block updates and one BlockActorData packet again, so its messages
are not only the ContainerOpen packet and the inventory push. -/
theorem UpdateMenu_resends_visuals_and_nbt :
    lastMenu worldAfterM1 (player_session playerP) ≠ none ∧
    ((UpdateMenu refEnv worldAfterM1 playerP menuM1Two).events.filter
      Event.isBlockUpdate).length = 2 ∧
    ((UpdateMenu refEnv worldAfterM1 playerP menuM1Two).events.filter
      Event.isBlockActorData).length = 1 ∧
    ¬ (∀ e ∈ (UpdateMenu refEnv worldAfterM1 playerP menuM1Two).events,
      e.isMessage = true → e.isContainerOpen = true ∨ e.isPush = true) := by
  decide

/-- C3, amended. When the tracker holds the menu `mn` for the session and the new menu has
at least one item and a kind with the visual block `visual`, `UpdateMenu` sends the same
five messages as an open, in the same order: the visual block at the tracked position,
air one above it, one BlockActorData packet, one ContainerOpen packet with the tracked
window id, one inventory push with that id.  It signals no Close and makes no allocator
call.  (Without items the call sends nothing: `inventory.New` panics at menu.go:63.) -/
theorem UpdateMenu_tracked_sends_five_messages (E : Env) (w : World) (p : Player)
    (m mn : Menu) (visual : Block)
    (hne : m.items ≠ [])
    (ht : lastMenu w (player_session p) = some mn)
    (hv : E.blockFromContainerKind m.kind = some visual) :
    ∃ (bp : BlockPos) (nbt : NBT) (ct : Byte) (inv : Inventory),
      (UpdateMenu E w p m).events.filter Event.isMessage =
        [ Event.ViewBlockUpdate mn.pos visual 0,
          Event.ViewBlockUpdate (mn.pos.Add ⟨0, 1, 0⟩) Block.Air 0,
          Event.writePacket (Packet.BlockActorData bp nbt),
          Event.writePacket (Packet.ContainerOpen mn.windowID bp ct (-1)),
          Event.sendInv inv (uint32 mn.windowID) ] ∧
      (UpdateMenu E w p m).events.filter Event.isClose = [] ∧
      (UpdateMenu E w p m).events.filter Event.isAlloc = [] ∧
      (UpdateMenu E w p m).returned = true := by
  unfold UpdateMenu
  obtain ⟨he, _, _, hr⟩ := sendMenu_update_tracked E w p m mn visual hne ht hv
  rw [he]
  exact ⟨blockPosToProtocol p.fakePos, menuNBT E m (blockPosToProtocol p.fakePos),
    menuContainerType E m.kind, menuInventory m, rfl, rfl, rfl, hr⟩

/-- Witness for the amended C3: the update of the tracked M1 by the two-stack M1. -/
theorem UpdateMenu_tracked_sends_five_messages_witness :
    menuM1Two.items ≠ [] ∧
    lastMenu worldAfterM1 (player_session playerP) = some trackedM1 ∧
    refEnv.blockFromContainerKind menuM1Two.kind = some Block.Chest ∧
    ∃ (bp : BlockPos) (nbt : NBT) (ct : Byte) (inv : Inventory),
      (UpdateMenu refEnv worldAfterM1 playerP menuM1Two).events.filter Event.isMessage =
        [ Event.ViewBlockUpdate trackedM1.pos Block.Chest 0,
          Event.ViewBlockUpdate (trackedM1.pos.Add ⟨0, 1, 0⟩) Block.Air 0,
          Event.writePacket (Packet.BlockActorData bp nbt),
          Event.writePacket (Packet.ContainerOpen trackedM1.windowID bp ct (-1)),
          Event.sendInv inv (uint32 trackedM1.windowID) ] ∧
      (UpdateMenu refEnv worldAfterM1 playerP menuM1Two).events.filter Event.isClose = [] ∧
      (UpdateMenu refEnv worldAfterM1 playerP menuM1Two).events.filter Event.isAlloc = [] ∧
      (UpdateMenu refEnv worldAfterM1 playerP menuM1Two).returned = true :=
  ⟨by decide, by decide, by decide,
    UpdateMenu_tracked_sends_five_messages refEnv worldAfterM1 playerP menuM1Two trackedM1
      Block.Chest (by decide) (by decide) (by decide)⟩

/-! ## Kinds outside the three constants -/

/-- C7. With `blockFromContainerKind` as the spec describes it (a fault on every kind that
is none of Chest, Hopper, Dropper), for every such kind byte: the visual-block lookup does
not return, `createFakeInventoryNBT` puts no id entry into the NBT map, and `sendMenu`, in
either mode and whatever the menu and the tracker hold, stops without returning; it writes
no ContainerOpen packet (so no container-type code leaves the call), no BlockActorData
packet and sends no message at all, and the tracker is left as it was. -/
theorem unrecognised_kind_fails_fast (E : Env) (w : World) (p : Player) (m : Menu)
    (update : Bool)
    (hk : m.kind ≠ E.ContainerTypeChest ∧ m.kind ≠ E.ContainerTypeHopper ∧
      m.kind ≠ E.ContainerTypeDropper) :
    E.withSpecBlocks.blockFromContainerKind m.kind = none ∧
    NBT.get (createFakeInventoryNBT E.withSpecBlocks m.name m.kind) "id" = none ∧
    (sendMenu E.withSpecBlocks w p m update).returned = false ∧
    (sendMenu E.withSpecBlocks w p m update).events.filter Event.isContainerOpen = [] ∧
    (sendMenu E.withSpecBlocks w p m update).events.filter Event.isBlockActorData = [] ∧
    (sendMenu E.withSpecBlocks w p m update).events.filter Event.isMessage = [] ∧
    (sendMenu E.withSpecBlocks w p m update).world.lastMenus = w.lastMenus := by
  have hv : E.withSpecBlocks.blockFromContainerKind m.kind = none := by
    simp [Env.withSpecBlocks, specBlockFromContainerKind, hk.1, hk.2.1, hk.2.2]
  have hnbt : createFakeInventoryNBT E.withSpecBlocks m.name m.kind =
      [("CustomName", NBTValue.str m.name)] := by
    simp [createFakeInventoryNBT, Env.withSpecBlocks, hk.1, hk.2.1, hk.2.2]
  refine ⟨hv, by rw [hnbt]; simp [NBT.get], ?_⟩
  by_cases hne : m.items = []
  · obtain ⟨he, _, hr, hw⟩ := sendMenu_empty E.withSpecBlocks w p m update hne
    rw [he, hw]
    exact ⟨hr, rfl, rfl, rfl, rfl⟩
  · cases update with
    | false =>
      obtain ⟨he, hr, hl⟩ := sendMenu_open_panic E.withSpecBlocks w p m hne hv
      rw [he]
      exact ⟨hr, closing_alloc_filter w p _ _ rfl (fun _ => rfl),
        closing_alloc_filter w p _ _ rfl (fun _ => rfl),
        closing_alloc_filter w p _ _ rfl (fun _ => rfl), hl⟩
    | true =>
      obtain ⟨he, hr, hl, _⟩ := sendMenu_update_panic E.withSpecBlocks w p m hne hv
      rw [he]
      exact ⟨hr, rfl, rfl, rfl, hl⟩

/-- Witness for C7: the one-stack menu of kind byte 3, sent in the reference environment to
a player whose tracked menu sits at another position. -/
theorem unrecognised_kind_fails_fast_witness :
    (menuOdd.kind ≠ refEnv.ContainerTypeChest ∧ menuOdd.kind ≠ refEnv.ContainerTypeHopper ∧
      menuOdd.kind ≠ refEnv.ContainerTypeDropper) ∧
    menuOdd.items ≠ [] ∧
    (sendMenu refEnv.withSpecBlocks worldAfterM1 playerPTurned menuOdd false).returned
      = false ∧
    (sendMenu refEnv.withSpecBlocks worldAfterM1 playerPTurned menuOdd false).events.filter
      Event.isContainerOpen = [] ∧
    (sendMenu refEnv.withSpecBlocks worldAfterM1 playerPTurned menuOdd false).events.filter
      Event.isBlockActorData = [] :=
  ⟨by decide, by decide,
    (unrecognised_kind_fails_fast refEnv worldAfterM1 playerPTurned menuOdd false
      (by decide)).2.2.1,
    (unrecognised_kind_fails_fast refEnv worldAfterM1 playerPTurned menuOdd false
      (by decide)).2.2.2.1,
    (unrecognised_kind_fails_fast refEnv worldAfterM1 playerPTurned menuOdd false
      (by decide)).2.2.2.2.1⟩

/-! ## Update without tracked menu -/

/-- C8, as stated, fails: in the empty state `UpdateMenu` of M1 makes no allocator call and
opens the container under window id 0, while `SendMenu` of M1 allocates id 1 and opens
under it; messages and tracker entry of the two runs differ. -/
theorem UpdateMenu_untracked_differs_from_SendMenu :
    lastMenu emptyWorld (player_session playerP) = none ∧
    (UpdateMenu refEnv emptyWorld playerP menuM1).events.filter Event.isAlloc = [] ∧
    (SendMenu refEnv emptyWorld playerP menuM1).events.filter Event.isAlloc =
      [Event.nextWindowID 1] ∧
    (UpdateMenu refEnv emptyWorld playerP menuM1).events.filter Event.isContainerOpen =
      [Event.writePacket (Packet.ContainerOpen 0 ⟨10, 5, 10⟩ 0 (-1))] ∧
    (SendMenu refEnv emptyWorld playerP menuM1).events.filter Event.isContainerOpen =
      [Event.writePacket (Packet.ContainerOpen 1 ⟨10, 5, 10⟩ 0 (-1))] ∧
    (UpdateMenu refEnv emptyWorld playerP menuM1).events.filter Event.isMessage ≠
      (SendMenu refEnv emptyWorld playerP menuM1).events.filter Event.isMessage ∧
    lastMenu (UpdateMenu refEnv emptyWorld playerP menuM1).world (player_session playerP) ≠
      lastMenu (SendMenu refEnv emptyWorld playerP menuM1).world (player_session playerP) := by
  decide

/-- C8, amended. For a session without tracked menu and a menu that has at least one item
and whose kind has the visual block `visual`, `UpdateMenu` sends the five messages of an
open at the freshly computed fake position, the same messages as `SendMenu` except for the
window id: `UpdateMenu` makes no allocator call and uses the zero byte where `SendMenu`
uses the allocated id.  The tracker entry afterwards is the menu at the fake position,
with window id 0 after `UpdateMenu` and with the allocated id after `SendMenu`. -/
theorem UpdateMenu_untracked_opens_with_window_zero (E : Env) (w : World) (p : Player)
    (m : Menu) (visual : Block)
    (hne : m.items ≠ [])
    (hno : lastMenu w (player_session p) = none)
    (hv : E.blockFromContainerKind m.kind = some visual) :
    ∃ msgs : Byte → List Event,
      (∀ wid, msgs wid =
        [ Event.ViewBlockUpdate p.fakePos visual 0,
          Event.ViewBlockUpdate (p.fakePos.Add ⟨0, 1, 0⟩) Block.Air 0,
          Event.writePacket (Packet.BlockActorData (blockPosToProtocol p.fakePos)
            (menuNBT E m (blockPosToProtocol p.fakePos))),
          Event.writePacket (Packet.ContainerOpen wid (blockPosToProtocol p.fakePos)
            (menuContainerType E m.kind) (-1)),
          Event.sendInv (menuInventory m) (uint32 wid) ]) ∧
      (UpdateMenu E w p m).events.filter Event.isMessage = msgs 0 ∧
      (SendMenu E w p m).events.filter Event.isMessage = msgs (allocated E w p) ∧
      (UpdateMenu E w p m).events.filter Event.isAlloc = [] ∧
      (UpdateMenu E w p m).world.windowState = w.windowState ∧
      (UpdateMenu E w p m).returned = true ∧
      lastMenu (UpdateMenu E w p m).world (player_session p) =
        some { m with pos := p.fakePos, windowID := 0 } ∧
      lastMenu (SendMenu E w p m).world (player_session p) =
        some { m with pos := p.fakePos, windowID := allocated E w p } := by
  obtain ⟨he, hl, hw, hr⟩ := sendMenu_update_untracked E w p m visual hne hno hv
  refine ⟨_, fun _ => rfl, ?_, ?_, ?_, hw, hr, hl,
    (sendMenu_open_world E w p m visual hne hv).1⟩
  · unfold UpdateMenu
    rw [he]
    rfl
  · unfold SendMenu
    rw [sendMenu_open_filter E w p m visual hne hv Event.isMessage rfl (fun _ => rfl)]
    rfl
  · unfold UpdateMenu
    rw [he]
    rfl

/-- Witness for the amended C8: M1 (one stack) sent as an update to the player in the
empty state. -/
theorem UpdateMenu_untracked_opens_with_window_zero_witness :
    menuM1.items ≠ [] ∧
    lastMenu emptyWorld (player_session playerP) = none ∧
    refEnv.blockFromContainerKind menuM1.kind = some Block.Chest ∧
    (UpdateMenu refEnv emptyWorld playerP menuM1).events.filter Event.isAlloc = [] ∧
    lastMenu (UpdateMenu refEnv emptyWorld playerP menuM1).world (player_session playerP) =
      some { menuM1 with pos := playerP.fakePos, windowID := 0 } := by
  obtain ⟨_, _, _, _, h4, _, _, h7, _⟩ :=
    UpdateMenu_untracked_opens_with_window_zero refEnv emptyWorld playerP menuM1 Block.Chest
      (by decide) (by decide) (by decide)
  exact ⟨by decide, by decide, by decide, h4, h7⟩

/-! ## Positions used by an update -/

/-- C10, evaluated at a failing input.  M1 is opened for the player at fake position
(10, 5, 10); the player turns (fake position (10, 5, 14)) and the menu is updated.  The
block updates go to the tracked position (10, 5, 10) and the tracker keeps it, while the
BlockActorData packet, the x/y/z entries of its NBT map and the ContainerOpen packet carry
the new position (10, 5, 14). -/
theorem UpdateMenu_after_turn_uses_two_positions :
    (UpdateMenu refEnv worldAfterM1 playerPTurned menuM1Two).events.filter Event.isMessage =
      [ Event.ViewBlockUpdate ⟨10, 5, 10⟩ Block.Chest 0,
        Event.ViewBlockUpdate ⟨10, 6, 10⟩ Block.Air 0,
        Event.writePacket (Packet.BlockActorData ⟨10, 5, 14⟩
          [("CustomName", NBTValue.str "Loot"), ("id", NBTValue.str "Chest"),
            ("x", NBTValue.i32 10), ("y", NBTValue.i32 5), ("z", NBTValue.i32 14)]),
        Event.writePacket (Packet.ContainerOpen 1 ⟨10, 5, 14⟩ 0 (-1)),
        Event.sendInv { slots := [⟨11⟩, ⟨12⟩], handler := some menuM1Two } 1 ] ∧
    (lastMenu (UpdateMenu refEnv worldAfterM1 playerPTurned menuM1Two).world
      (player_session playerPTurned)).map Menu.pos = some ⟨10, 5, 10⟩ := by
  decide

end Inv
